import Mathlib

/-!
Verification of the Docker sandbox lifecycle manager (`src/main.py`).

The manager (`DockerSandbox`) owns at most one container. We model its
mutable fields (`container`, `_container_id`, `_python_path`) as an explicit
state record, and the Docker daemon as backend oracles: records of functions
giving the outcome of each backend call (`containers.run`, `images.pull`,
`exec_run`, `reload`, `start`, `stop`, `remove`). Python exceptions become
explicit outcome constructors; methods that can raise return the new state
together with an `Except`-style result, mirroring the fact that object state
mutated before a `raise` persists. The unbounded retry recursion of
`create_container` (the `ImageNotFound` handler calls itself) is modelled
with a fuel parameter; `CreateError.fuelExhausted` marks only the modelling
artifact of running out of fuel, a case the Python code reaches as
non-termination.
-/

/-- The mutable state of a `DockerSandbox` instance: `self.container`
(the container handle, carrying the backend-assigned id),
`self._container_id`, and `self._python_path` (unset until bootstrap
succeeds). -/
structure SandboxState where
  container : Option String
  containerId : Option String
  pythonPath : Option String
  deriving Repr, DecidableEq

/-- The fresh state of `DockerSandbox.__init__`: no container, no id, no
recorded interpreter path. -/
def initState : SandboxState :=
  { container := none, containerId := none, pythonPath := none }

/-- Result of a backend `exec_run` call during provisioning: exit code and
decoded combined output. -/
structure ExecResult where
  exitCode : Int
  output : String
  deriving Repr, DecidableEq

/-- Outcome of `client.containers.run(image, ...)`: a created container id,
an `ImageNotFound` exception, or an `APIError` exception. -/
inductive RunOutcome where
  | created (cid : String)
  | imageNotFound
  | apiError (msg : String)
  deriving Repr, DecidableEq

/-- Outcome of `client.images.pull(image)`: success or an `APIError`. -/
inductive PullOutcome where
  | ok
  | apiError (msg : String)
  deriving Repr, DecidableEq

/-- Backend oracle for `create_container`: outcomes of the backend calls it
issues, indexed where relevant by the retry attempt number. -/
structure CreateBackend where
  runContainer : String → Nat → RunOutcome
  pullImage : String → Nat → PullOutcome
  installResult : ExecResult
  testExit : String → Int
  findOutput : String
  versionResult : String → ExecResult

/-- The errors `create_container` can surface (each a `raise` in the
source), plus the fuel-exhaustion marker for the unbounded retry
recursion. -/
inductive CreateError where
  | installFailed (output : String)
  | pythonNotFound
  | versionFailed
  | pullFailed (msg : String)
  | apiError (msg : String)
  | fuelExhausted
  deriving Repr, DecidableEq

/-- The errors raised after the container handle has been assigned
(bootstrap phase): installer non-zero exit, interpreter not discoverable,
interpreter verification failure. -/
def CreateError.isBootstrapPhase : CreateError → Bool
  | CreateError.installFailed _ => true
  | CreateError.pythonNotFound => true
  | CreateError.versionFailed => true
  | CreateError.pullFailed _ => false
  | CreateError.apiError _ => false
  | CreateError.fuelExhausted => false

/-- The fixed ordered probe list `potential_python_paths` from the source. -/
def potential_python_paths : List String :=
  ["/usr/bin/python3", "/usr/bin/python", "/usr/local/bin/python3",
   "/usr/local/bin/python"]

/-- The probe loop of `create_container`: run `test -x <path>` for each
candidate in order and take the first with exit code 0. -/
def probe_paths (testExit : String → Int) : List String → Option String
  | [] => none
  | p :: rest => if testExit p = 0 then some p else probe_paths testExit rest

/-- Interpreter discovery in `create_container`: probe the fixed path list;
if none matches, fall back to `find /usr -name 'python3*' -type f
-executable` and take the first output line (stripped); `none` means
discovery failed. -/
def find_python (b : CreateBackend) : Option String :=
  match probe_paths b.testExit potential_python_paths with
  | some p => some p
  | none =>
    if b.findOutput.trim ≠ "" then
      some (((b.findOutput.splitOn "\n").headD "").trim)
    else
      none

/-- How one pass through the body of `create_container` ends: either the
call is over (`done`, with the state after the pass and the returned id or
raised error), or the `ImageNotFound` handler pulled the image successfully
and the source recurses (`retryAfterPull`). -/
inductive AttemptResult where
  | done (s : SandboxState) (r : Except CreateError String)
  | retryAfterPull
  deriving Repr

/-- One pass through the body of `DockerSandbox.create_container`: reuse an
existing container; otherwise create, install Python, discover the
interpreter, verify it with `--version`, then record the path. Each raised
error propagates with the state as mutated so far — in particular the
container handle and id assigned right after creation are kept. -/
def create_attempt (b : CreateBackend) (image : String) (attempt : Nat)
    (s : SandboxState) : AttemptResult :=
  match s.container with
  | some _ => AttemptResult.done s (Except.ok (s.containerId.getD ""))
  | none =>
    match b.runContainer image attempt with
    | RunOutcome.created cid =>
      let s1 : SandboxState :=
        { s with container := some cid, containerId := some cid }
      if b.installResult.exitCode ≠ 0 then
        AttemptResult.done s1
          (Except.error (CreateError.installFailed b.installResult.output))
      else
        match find_python b with
        | none => AttemptResult.done s1 (Except.error CreateError.pythonNotFound)
        | some p =>
          if (b.versionResult p).exitCode ≠ 0 then
            AttemptResult.done s1 (Except.error CreateError.versionFailed)
          else
            AttemptResult.done { s1 with pythonPath := some p } (Except.ok cid)
    | RunOutcome.imageNotFound =>
      match b.pullImage image attempt with
      | PullOutcome.apiError m =>
        AttemptResult.done s (Except.error (CreateError.pullFailed m))
      | PullOutcome.ok => AttemptResult.retryAfterPull
    | RunOutcome.apiError m =>
      AttemptResult.done s (Except.error (CreateError.apiError m))

/-- `DockerSandbox.create_container`. Returns the state after the call and
either the container id or the raised error. On `ImageNotFound` the image
is pulled and creation retried by recursion; `fuel` bounds the model's
recursion depth (the source recursion is unbounded), and exhausting it
yields the `fuelExhausted` marker. -/
def create_container (b : CreateBackend) (image : String) :
    Nat → Nat → SandboxState → SandboxState × Except CreateError String
  | 0, attempt, s =>
    match create_attempt b image attempt s with
    | AttemptResult.done s2 r => (s2, r)
    | AttemptResult.retryAfterPull => (s, Except.error CreateError.fuelExhausted)
  | Nat.succ fuel, attempt, s =>
    match create_attempt b image attempt s with
    | AttemptResult.done s2 r => (s2, r)
    | AttemptResult.retryAfterPull => create_container b image fuel (attempt + 1) s

/-- Outcome of `container.reload()` followed by reading `container.status`. -/
inductive ReloadOutcome where
  | ok (status : String)
  | apiError (msg : String)
  | otherError (msg : String)
  deriving Repr, DecidableEq

/-- Outcome of `container.start()`. -/
inductive StartOutcome where
  | ok
  | apiError (msg : String)
  | otherError (msg : String)
  deriving Repr, DecidableEq

/-- Outcome of `container.exec_run(cmd, user="nobody", workdir="/tmp")` in
`run_code`: exit code with optional raw output, or a raised exception. -/
inductive ExecRunOutcome where
  | ok (exitCode : Int) (output : Option String)
  | apiError (msg : String)
  | otherError (msg : String)
  deriving Repr, DecidableEq

/-- Backend oracle for `run_code`: the outcomes of `reload`, `start`, and
`exec_run` (the latter as a function of the dispatched command). -/
structure ExecBackend where
  reload : ReloadOutcome
  start : StartOutcome
  exec : List String → ExecRunOutcome

/-- The dictionary `run_code` returns: optional `exit_code`, optional
`output`, optional `error` message (key present iff `some`). -/
structure RunResult where
  exitCode : Option Int
  output : Option String
  error : Option String
  deriving Repr, DecidableEq

/-- The `except docker.errors.APIError` branch of `run_code`. -/
def apiErrorResult (m : String) : RunResult :=
  { exitCode := none, output := none,
    error := some ("API error during execution: " ++ m) }

/-- The `except Exception` branch of `run_code`. -/
def unexpectedResult (m : String) : RunResult :=
  { exitCode := none, output := none,
    error := some ("Unexpected error: " ++ m) }

/-- The `exec_run` step of `run_code`: decode output (empty when the backend
returned none), then normalize by exit code. Also reports the command that
was actually dispatched to the backend. -/
def do_exec (b : ExecBackend) (cmd : List String) :
    Option (List String) × RunResult :=
  match b.exec cmd with
  | ExecRunOutcome.ok ec out =>
    let o := out.getD ""
    if ec ≠ 0 then
      (some cmd,
       { exitCode := some ec, output := some o,
         error := some ("Execution failed with exit code " ++ toString ec) })
    else
      (some cmd, { exitCode := some ec, output := some o, error := none })
  | ExecRunOutcome.apiError m => (some cmd, apiErrorResult m)
  | ExecRunOutcome.otherError m => (some cmd, unexpectedResult m)

/-- The self-healing section of `run_code`: reload the container status, if
it is not "running" attempt one `start()`, then dispatch `cmd`; exceptions
from reload/start are caught and become error results without dispatch. -/
def dispatch_exec (b : ExecBackend) (cmd : List String) :
    Option (List String) × RunResult :=
  match b.reload with
  | ReloadOutcome.apiError m => (none, apiErrorResult m)
  | ReloadOutcome.otherError m => (none, unexpectedResult m)
  | ReloadOutcome.ok st =>
    if st ≠ "running" then
      match b.start with
      | StartOutcome.apiError m => (none, apiErrorResult m)
      | StartOutcome.otherError m => (none, unexpectedResult m)
      | StartOutcome.ok => do_exec b cmd
    else
      do_exec b cmd

/-- `DockerSandbox.run_code`: refuse when no container is referenced;
map `python` to the fixed command `["python3", "-c", code]`; reject
`javascript` and every other language with an error dictionary. Returns the
dispatched command (if any) with the result dictionary. -/
def run_code (b : ExecBackend) (s : SandboxState) (code : String)
    (language : String) : Option (List String) × RunResult :=
  match s.container with
  | none =>
    (none,
     { exitCode := none, output := none,
       error := some "Container not initialized. Call 'initialize_sandbox' first." })
  | some _ =>
    if language = "python" then
      dispatch_exec b ["python3", "-c", code]
    else if language = "javascript" then
      (none,
       { exitCode := none, output := none,
         error := some "JavaScript execution not supported in minimal container" })
    else
      (none,
       { exitCode := none, output := none,
         error := some ("Unsupported language: " ++ language) })

/-- The dictionary the `execute_code` MCP tool returns to the caller. -/
structure ToolResult where
  status : String
  errorType : Option String
  message : Option String
  exitCode : Option Int
  output : Option String
  deriving Repr, DecidableEq

/-- The `execute_code` MCP tool: refuse with a `StateError` when
`sandbox.container` is not set; otherwise call `run_code` and wrap its
result, tagging any error dictionary as `ExecutionError`. -/
def execute_code (b : ExecBackend) (s : SandboxState) (code : String)
    (language : String) : Option (List String) × ToolResult :=
  match s.container with
  | none =>
    (none,
     { status := "error", errorType := some "StateError",
       message := some "Sandbox not initialized. Call 'initialize_sandbox' first.",
       exitCode := none, output := none })
  | some _ =>
    match run_code b s code language with
    | (cmd, r) =>
      match r.error with
      | some e =>
        (cmd,
         { status := "error", errorType := some "ExecutionError",
           message := some e, exitCode := r.exitCode, output := r.output })
      | none =>
        (cmd,
         { status := "success", errorType := none, message := none,
           exitCode := r.exitCode, output := r.output })

/-- Outcome of `container.stop(timeout=5)`: normal return, or a raised
`NotFound`, `APIError`, or other exception. -/
inductive StopOutcome where
  | ok
  | notFound
  | apiError (msg : String)
  | otherError (msg : String)
  deriving Repr, DecidableEq

/-- Outcome of `container.remove(force=True)`. -/
inductive RemoveOutcome where
  | ok
  | notFound
  | apiError (msg : String)
  | otherError (msg : String)
  deriving Repr, DecidableEq

/-- Backend oracle for `cleanup`: the outcome of `stop` as a function of
the grace period, and of `remove` as a function of the force flag. -/
structure CleanupBackend where
  stop : Nat → StopOutcome
  remove : Bool → RemoveOutcome

/-- How a `cleanup` call terminates: a normal return (caught `NotFound` and
`APIError` included), or an uncaught exception propagating to the caller. -/
inductive CleanupResult where
  | ok
  | raised (msg : String)
  deriving Repr, DecidableEq

/-- The observable outcome of `cleanup`: the state after the call (the
`finally` block included), which backend calls were issued (`stopCall`
records the grace period passed, `removeCall` the force flag), and how the
call terminated. -/
structure CleanupOutcome where
  state : SandboxState
  stopCall : Option Nat
  removeCall : Option Bool
  result : CleanupResult
  deriving Repr, DecidableEq

/-- `DockerSandbox.cleanup`: no-op when no container is referenced;
otherwise `stop(timeout=5)` then `remove(force=True)`, with `NotFound` and
`APIError` caught and swallowed, any other exception propagating, and the
`finally` block clearing `self.container` and `self._container_id` in every
case (note `_python_path` is not cleared). -/
def cleanup (b : CleanupBackend) (s : SandboxState) : CleanupOutcome :=
  match s.container with
  | none =>
    { state := s, stopCall := none, removeCall := none,
      result := CleanupResult.ok }
  | some _ =>
    let cleared : SandboxState :=
      { s with container := none, containerId := none }
    match b.stop 5 with
    | StopOutcome.ok =>
      match b.remove true with
      | RemoveOutcome.ok =>
        { state := cleared, stopCall := some 5, removeCall := some true,
          result := CleanupResult.ok }
      | RemoveOutcome.notFound =>
        { state := cleared, stopCall := some 5, removeCall := some true,
          result := CleanupResult.ok }
      | RemoveOutcome.apiError _ =>
        { state := cleared, stopCall := some 5, removeCall := some true,
          result := CleanupResult.ok }
      | RemoveOutcome.otherError m =>
        { state := cleared, stopCall := some 5, removeCall := some true,
          result := CleanupResult.raised m }
    | StopOutcome.notFound =>
      { state := cleared, stopCall := some 5, removeCall := none,
        result := CleanupResult.ok }
    | StopOutcome.apiError _ =>
      { state := cleared, stopCall := some 5, removeCall := none,
        result := CleanupResult.ok }
    | StopOutcome.otherError m =>
      { state := cleared, stopCall := some 5, removeCall := none,
        result := CleanupResult.raised m }

/-- Modelled from the spec: the data-model `status` field (`src/main.py`
keeps no explicit status). The spec defines `status = ready` exactly when an
environment is referenced and `resolvedInterpreterPath` is set
("`resolvedInterpreterPath` is set if and only if `status == ready`"). -/
def specReady (s : SandboxState) : Bool :=
  s.container.isSome && s.pythonPath.isSome

/-- A ready state as left by a successful provisioning run. -/
def sReadyW : SandboxState :=
  { container := some "c1", containerId := some "c1",
    pythonPath := some "/usr/bin/python3" }

/-- A live provisioned state used in the teardown scenarios. -/
def sLive : SandboxState :=
  { container := some "c6", containerId := some "c6",
    pythonPath := some "/usr/bin/python3" }

/-- A backend on which every provisioning step succeeds at the first
conventional path. -/
def bTrivial : CreateBackend :=
  { runContainer := fun _ _ => RunOutcome.created "c1",
    pullImage := fun _ _ => PullOutcome.ok,
    installResult := { exitCode := 0, output := "" },
    testExit := fun _ => 0,
    findOutput := "",
    versionResult := fun _ => { exitCode := 0, output := "Python 3.12.0" } }

/-- A backend on which the `apk` install step exits non-zero. -/
def bInstallFail : CreateBackend :=
  { runContainer := fun _ _ => RunOutcome.created "c1",
    pullImage := fun _ _ => PullOutcome.ok,
    installResult := { exitCode := 1, output := "apk failed" },
    testExit := fun _ => 1,
    findOutput := "",
    versionResult := fun _ => { exitCode := 0, output := "" } }

/-- A backend on which the first two conventional probe paths are absent and
the interpreter is found at `/usr/local/bin/python3`. -/
def bResolve : CreateBackend :=
  { runContainer := fun _ _ => RunOutcome.created "c2",
    pullImage := fun _ _ => PullOutcome.ok,
    installResult := { exitCode := 0, output := "" },
    testExit := fun p => if p = "/usr/local/bin/python3" then 0 else 1,
    findOutput := "",
    versionResult := fun _ => { exitCode := 0, output := "Python 3.12.0" } }

/-- A backend whose first two `containers.run` calls raise `ImageNotFound`
and whose third succeeds; every pull succeeds. -/
def bTwoMisses : CreateBackend :=
  { runContainer := fun _ attempt =>
      if attempt < 2 then RunOutcome.imageNotFound else RunOutcome.created "c5",
    pullImage := fun _ _ => PullOutcome.ok,
    installResult := { exitCode := 0, output := "" },
    testExit := fun _ => 0,
    findOutput := "",
    versionResult := fun _ => { exitCode := 0, output := "" } }

/-- An execution backend on which the container is running and every
dispatched command exits 0 with output `"2\n"`. -/
def bExecEcho : ExecBackend :=
  { reload := ReloadOutcome.ok "running",
    start := StartOutcome.ok,
    exec := fun _ => ExecRunOutcome.ok 0 (some "2\n") }

/-- An execution backend on which every dispatched command exits 3 with a
diagnostic on its output. -/
def bExecFailing : ExecBackend :=
  { reload := ReloadOutcome.ok "running",
    start := StartOutcome.ok,
    exec := fun _ => ExecRunOutcome.ok 3 (some "SystemExit: 3\n") }

/-- A cleanup backend whose `stop` call raises an `APIError`. -/
def bStopRaises : CleanupBackend :=
  { stop := fun _ => StopOutcome.apiError "daemon error",
    remove := fun _ => RemoveOutcome.ok }

/-- A cleanup backend whose `stop` succeeds and whose `remove` raises
`NotFound` (container already removed). -/
def bGraceful : CleanupBackend :=
  { stop := fun _ => StopOutcome.ok,
    remove := fun _ => RemoveOutcome.notFound }

/-- C3: once an environment is ready (container handle, id, and interpreter
path all recorded), `create_container` returns the recorded container id
unchanged for every image argument and every backend — the state is left
untouched and, since the result does not depend on the backend oracle at
all, no provisioning is performed. -/
theorem c3_initialize_idempotent (b : CreateBackend) (image : String)
    (fuel attempt : Nat) (s : SandboxState) (cid p : String)
    (hc : s.container = some cid) (hid : s.containerId = some cid)
    (_hp : s.pythonPath = some p) :
    create_container b image fuel attempt s = (s, Except.ok cid) := by
  have ha : create_attempt b image attempt s =
      AttemptResult.done s (Except.ok cid) := by
    unfold create_attempt
    rw [hc]
    simp [hid]
  cases fuel <;> simp [create_container, ha]

/-- C3 witness: a ready environment is reused as-is even when the second
call names a different image. -/
theorem c3_initialize_idempotent_witness :
    create_container bTrivial "node:20-slim" 3 0 sReadyW =
      (sReadyW, Except.ok "c1") :=
  c3_initialize_idempotent bTrivial "node:20-slim" 3 0 sReadyW "c1"
    "/usr/bin/python3" rfl rfl rfl

/-- C4: when the dispatched user code exits non-zero, `execute_code`
returns (never raises — every exception in `run_code` is caught and turned
into a dictionary) a structured result with `error_type = "ExecutionError"`,
the backend's exact exit code, the captured output, and the descriptive
message. -/
theorem c4_nonzero_exit_structured (b : ExecBackend) (s : SandboxState)
    (code : String) (cid st : String) (ec : Int) (out : Option String)
    (hc : s.container = some cid)
    (hr : b.reload = ReloadOutcome.ok st)
    (hrun : st = "running" ∨ b.start = StartOutcome.ok)
    (hexec : b.exec ["python3", "-c", code] = ExecRunOutcome.ok ec out)
    (hec : ec ≠ 0) :
    execute_code b s code "python" =
      (some ["python3", "-c", code],
       { status := "error", errorType := some "ExecutionError",
         message := some ("Execution failed with exit code " ++ toString ec),
         exitCode := some ec, output := some (out.getD "") }) := by
  rcases hrun with h | h
  · simp [execute_code, run_code, dispatch_exec, do_exec, hc, hr, h, hexec, hec]
  · by_cases hst : st = "running" <;>
      simp [execute_code, run_code, dispatch_exec, do_exec, hc, hr, h, hst,
        hexec, hec]

/-- C4 witness: `sys.exit(3)`-style code yields an `ExecutionError` result
with exit code 3 and the captured output. -/
theorem c4_nonzero_exit_structured_witness :
    execute_code bExecFailing sReadyW "import sys; sys.exit(3)" "python" =
      (some ["python3", "-c", "import sys; sys.exit(3)"],
       { status := "error", errorType := some "ExecutionError",
         message := some "Execution failed with exit code 3",
         exitCode := some 3, output := some "SystemExit: 3\n" }) :=
  c4_nonzero_exit_structured bExecFailing sReadyW "import sys; sys.exit(3)"
    "c1" "running" 3 (some "SystemExit: 3\n") rfl rfl (Or.inl rfl) rfl
    (by decide)

/-- C10: for every non-empty language other than `python` requested on a
state with a referenced ready environment, `run_code` returns an error
dictionary describing the unsupported language without dispatching anything,
and `execute_code` wraps it as a structured error result carrying that
message — both are returned values (no exception path exists in these
branches). -/
theorem c10_unsupported_language (b : ExecBackend) (s : SandboxState)
    (code language : String) (cid p : String)
    (hc : s.container = some cid) (_hp : s.pythonPath = some p)
    (hlang : language ≠ "python") (_hne : language ≠ "") :
    run_code b s code language =
      (none,
       { exitCode := none, output := none,
         error := some (if language = "javascript"
           then "JavaScript execution not supported in minimal container"
           else "Unsupported language: " ++ language) }) ∧
    (execute_code b s code language).2.status = "error" ∧
    (execute_code b s code language).2.message =
      some (if language = "javascript"
        then "JavaScript execution not supported in minimal container"
        else "Unsupported language: " ++ language) := by
  by_cases hjs : language = "javascript" <;>
    simp [run_code, execute_code, hc, hlang, hjs]

/-- C10 witness: requesting `ruby` yields the structured unsupported-language
result. -/
theorem c10_unsupported_language_witness :
    run_code bExecEcho sReadyW "puts 1" "ruby" =
      (none,
       { exitCode := none, output := none,
         error := some "Unsupported language: ruby" }) ∧
    (execute_code bExecEcho sReadyW "puts 1" "ruby").2.status = "error" ∧
    (execute_code bExecEcho sReadyW "puts 1" "ruby").2.message =
      some "Unsupported language: ruby" :=
  c10_unsupported_language bExecEcho sReadyW "puts 1" "ruby" "c1"
    "/usr/bin/python3" rfl rfl (by decide) (by decide)

/-- C9: interpreter discovery probes exactly the four conventional paths in
their listed order, accepting the first whose `test -x` probe exits 0; if
none matches it falls back to the `find /usr` search, taking the first
output line; if that is empty too, provisioning fails fatally with the
interpreter-not-found error (the container having been created and the
install having succeeded); and a discovered, version-verified path is the
one recorded on the state. -/
theorem c9_discovery_policy (b : CreateBackend) (s : SandboxState)
    (image : String) (fuel attempt : Nat) (cid : String)
    (hc : s.container = none)
    (hrun : b.runContainer image attempt = RunOutcome.created cid)
    (hinst : b.installResult.exitCode = 0) :
    (find_python b =
      if b.testExit "/usr/bin/python3" = 0 then some "/usr/bin/python3"
      else if b.testExit "/usr/bin/python" = 0 then some "/usr/bin/python"
      else if b.testExit "/usr/local/bin/python3" = 0 then
        some "/usr/local/bin/python3"
      else if b.testExit "/usr/local/bin/python" = 0 then
        some "/usr/local/bin/python"
      else if b.findOutput.trim ≠ "" then
        some (((b.findOutput.splitOn "\n").headD "").trim)
      else none) ∧
    (find_python b = none →
      create_container b image fuel attempt s =
        ({ s with container := some cid, containerId := some cid },
         Except.error CreateError.pythonNotFound)) ∧
    (∀ p, find_python b = some p → (b.versionResult p).exitCode = 0 →
      (create_container b image fuel attempt s).1.pythonPath = some p) := by
  refine ⟨?_, ?_, ?_⟩
  · by_cases h1 : b.testExit "/usr/bin/python3" = 0 <;>
    by_cases h2 : b.testExit "/usr/bin/python" = 0 <;>
    by_cases h3 : b.testExit "/usr/local/bin/python3" = 0 <;>
    by_cases h4 : b.testExit "/usr/local/bin/python" = 0 <;>
      simp [find_python, probe_paths, potential_python_paths, h1, h2, h3, h4]
  · intro hf
    have ha : create_attempt b image attempt s =
        AttemptResult.done
          { s with container := some cid, containerId := some cid }
          (Except.error CreateError.pythonNotFound) := by
      unfold create_attempt
      rw [hc]
      simp [hrun, hinst, hf]
    cases fuel <;> simp [create_container, ha]
  · intro p hf hv
    have ha : create_attempt b image attempt s =
        AttemptResult.done
          (⟨some cid, some cid, some p⟩ : SandboxState) (Except.ok cid) := by
      unfold create_attempt
      rw [hc]
      simp [hrun, hinst, hf, hv]
    cases fuel <;> simp [create_container, ha]

/-- C9 witness: with the first two conventional paths absent, discovery
returns `/usr/local/bin/python3` and the successful provisioning run records
exactly that path. -/
theorem c9_discovery_policy_witness :
    (create_container bResolve "alpine:latest" 1 0 initState).1.pythonPath =
      some "/usr/local/bin/python3" :=
  (c9_discovery_policy bResolve initState "alpine:latest" 1 0 "c2" rfl rfl
    rfl).2.2 "/usr/local/bin/python3" rfl rfl

/-- C7: `cleanup` is idempotent and always clears the container reference:
with no container it is a no-op returning normally with no backend calls;
for every backend behaviour (raised stop/remove exceptions included) the
state after the call references no container, and the recorded id is
cleared whenever a container existed; and a second `cleanup` right after a
first one — with any backend behaviour on either call — returns normally
without issuing any backend call. -/
theorem c7_stop_idempotent_clears (b : CleanupBackend) (s : SandboxState) :
    ((cleanup b s).state.container = none) ∧
    (s.container = none →
      cleanup b s = { state := s, stopCall := none, removeCall := none,
                      result := CleanupResult.ok }) ∧
    (s.container.isSome → (cleanup b s).state.containerId = none) ∧
    (∀ b2 : CleanupBackend,
      (cleanup b2 (cleanup b s).state).result = CleanupResult.ok ∧
      (cleanup b2 (cleanup b s).state).stopCall = none ∧
      (cleanup b2 (cleanup b s).state).removeCall = none) := by
  have hnone : ∀ (b3 : CleanupBackend) (t : SandboxState),
      t.container = none →
      cleanup b3 t = { state := t, stopCall := none, removeCall := none,
                       result := CleanupResult.ok } := by
    intro b3 t ht
    unfold cleanup
    rw [ht]
  have hclear : (cleanup b s).state.container = none := by
    unfold cleanup
    cases hs : s.container with
    | none => simpa using hs
    | some cid =>
      cases b.stop 5 <;> simp
      cases b.remove true <;> simp
  refine ⟨hclear, hnone b s, ?_, ?_⟩
  · intro hsome
    rcases Option.isSome_iff_exists.mp hsome with ⟨cid, hs⟩
    unfold cleanup
    rw [hs]
    cases b.stop 5 <;> simp
    cases b.remove true <;> simp
  · intro b2
    rw [hnone b2 (cleanup b s).state hclear]
    exact ⟨rfl, rfl, rfl⟩

/-- C7 witness: stopping twice from a live state — even when the first stop
call raises an `APIError` in the backend — gives a second call that
returns normally as a no-op, and the first call already cleared the
container reference. -/
theorem c7_stop_idempotent_clears_witness :
    (cleanup bGraceful (cleanup bStopRaises sLive).state).result =
      CleanupResult.ok ∧
    (cleanup bStopRaises sLive).state.container = none :=
  ⟨((c7_stop_idempotent_clears bStopRaises sLive).2.2.2 bGraceful).1,
   (c7_stop_idempotent_clears bStopRaises sLive).1⟩

/-- Bootstrap-phase errors in one `create_attempt` pass leave the freshly
assigned container handle and id referenced; creation-phase errors leave
the state exactly as before. -/
theorem create_attempt_error_state (b : CreateBackend) (image : String)
    (attempt : Nat) (s : SandboxState) (hc : s.container = none) :
    ∀ (s2 : SandboxState) (e : CreateError),
    create_attempt b image attempt s = AttemptResult.done s2 (Except.error e) →
    (e.isBootstrapPhase = true →
      s2.container.isSome ∧ s2.containerId.isSome ∧
      s2.pythonPath = s.pythonPath) ∧
    (e.isBootstrapPhase = false → s2 = s) := by
  intro s2 e h
  unfold create_attempt at h
  rw [hc] at h
  cases hr : b.runContainer image attempt <;> simp only [hr] at h
  case created cid =>
    by_cases hi : b.installResult.exitCode ≠ 0
    · rw [if_pos hi] at h
      cases h
      simp [CreateError.isBootstrapPhase]
    · rw [if_neg hi] at h
      cases hf : find_python b with
      | none =>
        simp only [hf] at h
        cases h
        simp [CreateError.isBootstrapPhase]
      | some p =>
        simp only [hf] at h
        by_cases hv : (b.versionResult p).exitCode ≠ 0
        · rw [if_pos hv] at h
          cases h
          simp [CreateError.isBootstrapPhase]
        · rw [if_neg hv] at h
          cases h
  case imageNotFound =>
    cases hp : b.pullImage image attempt with
    | ok =>
      simp only [hp] at h
      exact AttemptResult.noConfusion h
    | apiError m =>
      simp only [hp] at h
      cases h
      simp [CreateError.isBootstrapPhase]
  case apiError m =>
    cases h
    simp [CreateError.isBootstrapPhase]

/-- C1 counterexample: on a backend where the container is created but the
`apk` install exits non-zero, `create_container` surfaces the install error
yet leaves both the container handle and the container id set — not
`absent` as the claim states. -/
theorem c1_counterexample :
    (create_container bInstallFail "alpine:latest" 1 0 initState).2 =
      Except.error (CreateError.installFailed "apk failed") ∧
    (create_container bInstallFail "alpine:latest" 1 0 initState).1.container =
      some "c1" ∧
    (create_container bInstallFail "alpine:latest" 1 0 initState).1.containerId =
      some "c1" :=
  ⟨rfl, rfl, rfl⟩

/-- C1 amended: starting from a state with no environment, a failed
`create_container` surfaces its error, and the state it leaves depends on
the phase: creation-phase failures (API error during creation, pull
failure) leave the state exactly as before the call, while bootstrap-phase
failures (install failure, interpreter not discoverable, verification
failure) retain the container handle and container id assigned at
creation (only the interpreter path stays unset). -/
theorem c1_failed_init_state (b : CreateBackend) (image : String) :
    ∀ (fuel attempt : Nat) (s s2 : SandboxState) (e : CreateError),
    s.container = none →
    create_container b image fuel attempt s = (s2, Except.error e) →
    (e.isBootstrapPhase = true →
      s2.container.isSome ∧ s2.containerId.isSome ∧
      s2.pythonPath = s.pythonPath) ∧
    (e.isBootstrapPhase = false → s2 = s) := by
  intro fuel
  induction fuel with
  | zero =>
    intro attempt s s2 e hc heq
    simp only [create_container] at heq
    cases ha : create_attempt b image attempt s <;> simp only [ha] at heq
    case done s3 r =>
      rw [Prod.mk.injEq] at heq
      obtain ⟨h1, h2⟩ := heq
      subst h2
      subst h1
      exact create_attempt_error_state b image attempt s hc s3 e ha
    case retryAfterPull =>
      rw [Prod.mk.injEq] at heq
      obtain ⟨h1, h2⟩ := heq
      injection h2 with h3
      subst h3
      subst h1
      exact ⟨fun hb => by simp [CreateError.isBootstrapPhase] at hb,
             fun _ => rfl⟩
  | succ n ih =>
    intro attempt s s2 e hc heq
    simp only [create_container] at heq
    cases ha : create_attempt b image attempt s <;> simp only [ha] at heq
    case done s3 r =>
      rw [Prod.mk.injEq] at heq
      obtain ⟨h1, h2⟩ := heq
      subst h2
      subst h1
      exact create_attempt_error_state b image attempt s hc s3 e ha
    case retryAfterPull =>
      exact ih (attempt + 1) s s2 e hc heq

/-- C1 witness: the amended statement applied to the failed-install run —
the retained state references the container created before the failure. -/
theorem c1_failed_init_state_witness :
    (⟨some "c1", some "c1", none⟩ : SandboxState).container.isSome ∧
    (⟨some "c1", some "c1", none⟩ : SandboxState).containerId.isSome ∧
    (⟨some "c1", some "c1", none⟩ : SandboxState).pythonPath =
      initState.pythonPath :=
  (c1_failed_init_state bInstallFail "alpine:latest" 1 0 initState
    ⟨some "c1", some "c1", none⟩ (CreateError.installFailed "apk failed")
    rfl rfl).1 rfl

/-- C2 counterexample: a provisioning run that records
`/usr/local/bin/python3` as the resolved interpreter, after which the
dispatched python command still invokes the fixed name `python3` — not the
recorded path. -/
theorem c2_counterexample :
    (create_container bResolve "alpine:latest" 1 0 initState).1.pythonPath =
      some "/usr/local/bin/python3" ∧
    (run_code bExecEcho (create_container bResolve "alpine:latest" 1 0
        initState).1 "print(1+1)" "python").1 =
      some ["python3", "-c", "print(1+1)"] ∧
    (["python3", "-c", "print(1+1)"] : List String) ≠
      ["/usr/local/bin/python3", "-c", "print(1+1)"] :=
  ⟨rfl, rfl, by decide⟩

/-- C2 amended: every command `run_code` dispatches for the `python`
language is exactly `["python3", "-c", code]` — the fixed interpreter name
resolved through the container's PATH with the inline-code flag — never the
interpreter path recorded during bootstrap; and when the container reports
status `running`, that command is indeed dispatched. -/
theorem do_exec_cmd (b : ExecBackend) (cmd : List String) :
    (do_exec b cmd).1 = some cmd := by
  unfold do_exec
  cases he : b.exec cmd with
  | ok ec out =>
    simp only [he]
    split <;> rfl
  | apiError m => simp [he]
  | otherError m => simp [he]

theorem dispatch_exec_cmd (b : ExecBackend) (cmd : List String) :
    (dispatch_exec b cmd).1 = none ∨ (dispatch_exec b cmd).1 = some cmd := by
  unfold dispatch_exec
  cases b.reload with
  | apiError m => simp
  | otherError m => simp
  | ok st =>
    by_cases hst : st ≠ "running"
    · simp only [if_pos hst]
      cases b.start with
      | apiError m => simp
      | otherError m => simp
      | ok => exact Or.inr (do_exec_cmd b cmd)
    · simp only [if_neg hst]
      exact Or.inr (do_exec_cmd b cmd)

theorem run_code_python_eq (b : ExecBackend) (s : SandboxState)
    (code cid : String) (hc : s.container = some cid) :
    run_code b s code "python" = dispatch_exec b ["python3", "-c", code] := by
  unfold run_code
  rw [hc]
  simp

theorem c2_python_dispatch_fixed_name (b : ExecBackend) (s : SandboxState)
    (code cid : String) (hc : s.container = some cid) :
    (∀ c, (run_code b s code "python").1 = some c →
      c = ["python3", "-c", code]) ∧
    (b.reload = ReloadOutcome.ok "running" →
      (run_code b s code "python").1 = some ["python3", "-c", code]) := by
  constructor
  · intro c h
    rw [run_code_python_eq b s code cid hc] at h
    rcases dispatch_exec_cmd b ["python3", "-c", code] with h2 | h2 <;>
      rw [h2] at h
    · exact absurd h (by simp)
    · exact (Option.some.inj h).symm
  · intro hr
    rw [run_code_python_eq b s code cid hc]
    unfold dispatch_exec
    rw [hr]
    exact do_exec_cmd b ["python3", "-c", code]

/-- C2 witness: with the container running, the dispatched command is the
fixed `python3 -c` invocation. -/
theorem c2_python_dispatch_fixed_name_witness :
    (run_code bExecEcho sReadyW "print(1+1)" "python").1 =
      some ["python3", "-c", "print(1+1)"] :=
  (c2_python_dispatch_fixed_name bExecEcho sReadyW "print(1+1)" "c1" rfl).2
    rfl

/-- C5 counterexample: a backend whose first two creation calls raise
`ImageNotFound` and whose pulls succeed — the manager pulls and retries a
second time and the call succeeds, whereas the claim requires the second
not-found to be fatal and surfaced as an error. -/
theorem c5_counterexample :
    bTwoMisses.runContainer "busybox" 0 = RunOutcome.imageNotFound ∧
    bTwoMisses.runContainer "busybox" 1 = RunOutcome.imageNotFound ∧
    (create_container bTwoMisses "busybox" 5 0 initState).2 =
      Except.ok "c5" :=
  ⟨rfl, rfl, rfl⟩

/-- C5 amended: when the requested image is not found, the manager pulls it
and retries creation recursively — repeating on every subsequent not-found
with no retry bound (the recursion is unbounded) — and only a failure of the
pull itself is fatal, surfaced as an error with the state unchanged. -/
theorem c5_pull_and_retry_unbounded (b : CreateBackend) (image : String)
    (fuel attempt : Nat) (s : SandboxState)
    (hc : s.container = none)
    (hnf : b.runContainer image attempt = RunOutcome.imageNotFound) :
    (b.pullImage image attempt = PullOutcome.ok →
      create_container b image (fuel + 1) attempt s =
        create_container b image fuel (attempt + 1) s) ∧
    (∀ m, b.pullImage image attempt = PullOutcome.apiError m →
      create_container b image fuel attempt s =
        (s, Except.error (CreateError.pullFailed m))) := by
  constructor
  · intro hp
    have ha : create_attempt b image attempt s = AttemptResult.retryAfterPull := by
      unfold create_attempt
      rw [hc]
      simp [hnf, hp]
    simp [create_container, ha]
  · intro m hp
    have ha : create_attempt b image attempt s =
        AttemptResult.done s (Except.error (CreateError.pullFailed m)) := by
      unfold create_attempt
      rw [hc]
      simp [hnf, hp]
    cases fuel <;> simp [create_container, ha]

/-- C5 witness: after the first not-found and successful pull, the call
continues as a fresh creation attempt. -/
theorem c5_pull_and_retry_unbounded_witness :
    create_container bTwoMisses "busybox" 3 0 initState =
      create_container bTwoMisses "busybox" 2 1 initState :=
  (c5_pull_and_retry_unbounded bTwoMisses "busybox" 2 0 initState rfl rfl).1
    rfl

/-- C6 counterexample: with an existing environment and a `stop` call that
raises an `APIError`, `cleanup` never issues the force-remove — contrary to
the claim that removal happens regardless of the stop outcome. -/
theorem c6_counterexample :
    sLive.container.isSome = true ∧
    (cleanup bStopRaises sLive).stopCall = some 5 ∧
    (cleanup bStopRaises sLive).removeCall = none :=
  ⟨rfl, rfl, rfl⟩

/-- C6 amended: when an environment exists, `cleanup` attempts a graceful
stop with a 5-second grace period; the force-remove is issued exactly when
the stop call returns normally (if stop raises, removal is skipped — an
already-removed environment and API errors are swallowed as success); an
already-removed environment at the remove step is also success; and the
container reference is cleared in every case. -/
theorem c6_stop_then_conditional_remove (b : CleanupBackend)
    (s : SandboxState) (cid : String) (hc : s.container = some cid) :
    (cleanup b s).stopCall = some 5 ∧
    (b.stop 5 = StopOutcome.ok → (cleanup b s).removeCall = some true) ∧
    (b.stop 5 ≠ StopOutcome.ok → (cleanup b s).removeCall = none) ∧
    (b.stop 5 = StopOutcome.notFound → (cleanup b s).result = CleanupResult.ok) ∧
    (b.stop 5 = StopOutcome.ok → b.remove true = RemoveOutcome.notFound →
      (cleanup b s).result = CleanupResult.ok) ∧
    (cleanup b s).state.container = none := by
  unfold cleanup
  rw [hc]
  cases hs : b.stop 5 <;> simp [hs]
  cases hr : b.remove true <;> simp [hr]

/-- C6 witness: a graceful stop followed by a `NotFound` on removal is
reported as success, with the force-remove having been issued. -/
theorem c6_stop_then_conditional_remove_witness :
    (cleanup bGraceful sLive).removeCall = some true ∧
    (cleanup bGraceful sLive).result = CleanupResult.ok :=
  ⟨(c6_stop_then_conditional_remove bGraceful sLive "c6" rfl).2.1 rfl,
   (c6_stop_then_conditional_remove bGraceful sLive "c6" rfl).2.2.2.2.1 rfl
     rfl⟩

/-- C8 counterexample: a reachable state whose bootstrap failed (install
error), so the environment is not ready in the spec's sense, yet
`execute_code` dispatches the python command and reports success instead of
refusing with a `StateError`. -/
theorem c8_counterexample :
    specReady (create_container bInstallFail "alpine:latest" 1 0 initState).1 =
      false ∧
    (execute_code bExecEcho (create_container bInstallFail "alpine:latest" 1 0
        initState).1 "print(1+1)" "python").1 =
      some ["python3", "-c", "print(1+1)"] ∧
    (execute_code bExecEcho (create_container bInstallFail "alpine:latest" 1 0
        initState).1 "print(1+1)" "python").2.status = "success" ∧
    (execute_code bExecEcho (create_container bInstallFail "alpine:latest" 1 0
        initState).1 "print(1+1)" "python").2.errorType ≠ some "StateError" :=
  ⟨rfl, rfl, rfl, by decide⟩

/-- C8 amended: `execute_code` refuses with a structured `StateError`
result exactly when no container is referenced (before any successful
creation, or after `cleanup`); whenever a container is referenced — ready
or not — the request proceeds and the result is never a `StateError`. -/
theorem c8_state_error_iff_no_container (b : ExecBackend) (s : SandboxState)
    (code language : String) :
    (s.container = none →
      execute_code b s code language =
        (none,
         { status := "error", errorType := some "StateError",
           message := some "Sandbox not initialized. Call 'initialize_sandbox' first.",
           exitCode := none, output := none })) ∧
    (∀ cid, s.container = some cid →
      (execute_code b s code language).2.errorType ≠ some "StateError") := by
  constructor
  · intro hc
    unfold execute_code
    rw [hc]
  · intro cid hc
    unfold execute_code
    rw [hc]
    cases hcall : run_code b s code language with
    | mk cmd r =>
      cases hr : r.error <;> simp [hr]

/-- C8 witness: executing before any initialization yields the structured
`StateError` refusal. -/
theorem c8_state_error_iff_no_container_witness :
    execute_code bExecEcho initState "print(1+1)" "python" =
      (none,
       { status := "error", errorType := some "StateError",
         message := some "Sandbox not initialized. Call 'initialize_sandbox' first.",
         exitCode := none, output := none }) :=
  (c8_state_error_iff_no_container bExecEcho initState "print(1+1)"
    "python").1 rfl
